import Mathlib

/-!
Verification of the App Store Optimization scoring and clustering engine.

The development shallowly embeds the arithmetic core of the repository:
`aso_scorer.py` (dimension scorers, weighted aggregation, health buckets),
`keyword_analyzer.py` (keyword difficulty/potential model, recommendation
ladder, intent clustering, cluster scoring, natural-query generation) and
the platform validation of `metadata_optimizer.py`.  Python floats are
modelled as rationals; `round(x, 1)` is modelled by `round1` below.
-/

/-- Model of Python `round(x, 1)`: round to the nearest multiple of 1/10
(the exact tie-breaking convention is immaterial to the theorems below). -/
def round1 (x : ℚ) : ℚ := ((round (10 * x) : ℤ) : ℚ) / 10

/-! ### `aso_scorer.py` — weight profiles and weighted aggregation -/

/-- The six dimension weights (`ASOScorer.WEIGHTS` keys). -/
structure Weights where
  metadata_quality : ℚ
  ratings_reviews : ℚ
  keyword_performance : ℚ
  conversion_metrics : ℚ
  technical_performance : ℚ
  visual_optimization : ℚ
deriving DecidableEq

/-- `ASOScorer.WEIGHTS` (default profile). -/
def WEIGHTS : Weights := ⟨20, 20, 20, 20, 15, 5⟩

/-- `ASOScorer.GOOGLE_WEIGHTS`. -/
def GOOGLE_WEIGHTS : Weights := ⟨20, 20, 20, 15, 20, 5⟩

/-- `ASOScorer.APPLE_WEIGHTS`. -/
def APPLE_WEIGHTS : Weights := ⟨20, 20, 20, 20, 10, 10⟩

/-- Sum of the six weights of a profile. -/
def wsum (w : Weights) : ℚ :=
  w.metadata_quality + w.ratings_reviews + w.keyword_performance +
    w.conversion_metrics + w.technical_performance + w.visual_optimization

/-- `ASOScorer.__init__` lowercases the platform and `_resolve_weights`
selects the profile; anything other than `"google"`/`"apple"` (after
lowercasing) falls back to the default profile. -/
def resolveWeights (platform : Option String) : Weights :=
  match platform with
  | none => WEIGHTS
  | some p =>
      if p.toLower = "google" then GOOGLE_WEIGHTS
      else if p.toLower = "apple" then APPLE_WEIGHTS
      else WEIGHTS

/-- The weighted sum of `ASOScorer.calculate_overall_score` (lines 136-143)
before the final one-decimal rounding. -/
def rawOverall (w : Weights) (ms rs ks cs ts vs : ℚ) : ℚ :=
  ms * (w.metadata_quality / 100) +
  rs * (w.ratings_reviews / 100) +
  ks * (w.keyword_performance / 100) +
  cs * (w.conversion_metrics / 100) +
  ts * (w.technical_performance / 100) +
  vs * (w.visual_optimization / 100)

/-- The `overall_score` field of the report: the weighted sum rounded to one
decimal. -/
def overallScore (w : Weights) (ms rs ks cs ts vs : ℚ) : ℚ :=
  round1 (rawOverall w ms rs ks cs ts vs)

/-- Minimum of six sub-scores. -/
def min6 (a b c d e f : ℚ) : ℚ := min a (min b (min c (min d (min e f))))

/-- Maximum of six sub-scores. -/
def max6 (a b c d e f : ℚ) : ℚ := max a (max b (max c (max d (max e f))))

/-! ### `aso_scorer.py` — dimension scorers -/

/-- Input bundle of `ASOScorer.score_metadata_quality` (dictionary keys with
their `get` defaults). -/
structure MetadataInput where
  title_keyword_count : ℚ
  title_length : ℚ
  description_length : ℚ
  description_quality : ℚ
  keyword_density : ℚ
deriving DecidableEq

/-- Title component (0-35) of `score_metadata_quality`: benchmark thresholds
`title_keyword_usage = {min: 1, target: 2}`, with a −5 adjustment when the
title length is at most 25 characters, capped at 35. -/
def titleScore (md : MetadataInput) : ℚ :=
  let base : ℚ :=
    if md.title_keyword_count ≥ 2 then 35
    else if md.title_keyword_count ≥ 1 then 25
    else 10
  let adjusted : ℚ := if md.title_length > 25 then base else base - 5
  min adjusted 35

/-- Description component (0-35) of `score_metadata_quality`: thresholds
`description_length = {min: 500, target: 2000}` plus `description_quality * 10`,
capped at 35. -/
def descScore (md : MetadataInput) : ℚ :=
  let base : ℚ :=
    if md.description_length ≥ 2000 then 25
    else if md.description_length ≥ 500 then 15
    else 5
  min (base + md.description_quality * 10) 35

/-- Keyword-density component (0-30) of `score_metadata_quality`: thresholds
`keyword_density = {min: 2, optimal: 5}`, proportional below the minimum,
stuffing penalty of 5 per unit above the optimum floored at 0. -/
def densityScore (md : MetadataInput) : ℚ :=
  if 2 ≤ md.keyword_density ∧ md.keyword_density ≤ 5 then 30
  else if md.keyword_density < 2 then md.keyword_density / 2 * 20
  else max (30 - (md.keyword_density - 5) * 5) 0

/-- `ASOScorer.score_metadata_quality`: sum of the three components rounded
to one decimal. -/
def scoreMetadataQuality (md : MetadataInput) : ℚ :=
  round1 (titleScore md + descScore md + densityScore md)

/-- Input bundle of `ASOScorer.score_ratings_reviews`. -/
structure RatingsInput where
  average_rating : ℚ
  total_ratings : ℚ
  recent_ratings_30d : ℚ
deriving DecidableEq

/-- Rating-quality component (0-50) of `score_ratings_reviews`: benchmark
`average_rating = {min: 3.5, target: 4.5}`, interpolating 30 → 50 between
them, with flat tiers 20 (rating at least 3.0) and 10 below. -/
def ratingQualityScore (r : ℚ) : ℚ :=
  if r ≥ 4.5 then 50
  else if r ≥ 3.5 then 30 + (r - 3.5) / (4.5 - 3.5) * 20
  else if r ≥ 3.0 then 20
  else 10

/-- Rating-volume component (0-30) of `score_ratings_reviews`: benchmark
`ratings_count = {min: 100, target: 5000}`, interpolating 15 → 30 between
them, proportional below the minimum. -/
def ratingVolumeScore (t : ℚ) : ℚ :=
  if t ≥ 5000 then 30
  else if t ≥ 100 then 15 + (t - 100) / (5000 - 100) * 15
  else t / 100 * 15

/-- Rating-velocity component (0-20) of `score_ratings_reviews`: step
function on ratings received in the last 30 days. -/
def ratingVelocityScore (rec30 : ℚ) : ℚ :=
  if rec30 > 100 then 20
  else if rec30 > 50 then 15
  else if rec30 > 10 then 10
  else 5

/-- `ASOScorer.score_ratings_reviews`: the three components summed, capped at
100 and rounded to one decimal. -/
def scoreRatingsReviews (rt : RatingsInput) : ℚ :=
  round1 (min (ratingQualityScore rt.average_rating +
    ratingVolumeScore rt.total_ratings +
    ratingVelocityScore rt.recent_ratings_30d) 100)

/-- `ASOScorer._assess_health_status`. -/
def assessHealthStatus (s : ℚ) : String :=
  if s ≥ 80 then "Excellent - Top-tier ASO performance"
  else if s ≥ 65 then "Good - Competitive ASO with room for improvement"
  else if s ≥ 50 then "Fair - Needs strategic improvements"
  else "Poor - Requires immediate ASO overhaul"

/-! ### `keyword_analyzer.py` — keyword evaluator -/

/-- `KeywordAnalyzer._calculate_keyword_difficulty`: returns 0 when
`competing_apps == 0`, otherwise the weighted combination of the capped
competition and volume factors, scaled to 0-100 and rounded. -/
def difficultyScore (search_volume competing_apps : ℚ) : ℚ :=
  if competing_apps = 0 then 0
  else round1 ((min (competing_apps / 50000) 1 * 0.7 +
    min (search_volume / 1000000) 1 * 0.3) * 100)

/-- `KeywordAnalyzer._calculate_potential_score`: capped volume points plus
inverse-competition points plus relevance points, capped at 100, rounded. -/
def potentialScore (search_volume competing_apps relevance_score : ℚ) : ℚ :=
  let volumeS : ℚ := min (search_volume / 100000 * 40) 40
  let competitionS : ℚ :=
    if competing_apps > 0 then max (30 - competing_apps / 500) 0 else 30
  round1 (min (volumeS + competitionS + relevance_score * 30) 100)

/-- `KeywordAnalyzer._generate_recommendation`: the relevance gate followed
by the four-tier ladder on the potential score. -/
def generateRecommendation (potential difficulty relevance : ℚ) : String :=
  if relevance < 0.5 then "Low relevance - avoid targeting"
  else if potential ≥ 70 then "High priority - target immediately"
  else if potential ≥ 50 then
    if difficulty < 50 then "Good opportunity - include in metadata"
    else "Competitive - use in description, not title"
  else if potential ≥ 30 then "Secondary keyword - use for long-tail variations"
  else "Low potential - deprioritize"

/-! ### `metadata_optimizer.py` — platform validation -/

/-- Apple character limits (`MetadataOptimizer.CHAR_LIMITS['apple']`). -/
def CHAR_LIMITS_apple : List (String × ℕ) :=
  [("title", 30), ("subtitle", 30), ("promotional_text", 170),
   ("description", 4000), ("keywords", 100), ("whats_new", 4000)]

/-- Google character limits (`MetadataOptimizer.CHAR_LIMITS['google']`). -/
def CHAR_LIMITS_google : List (String × ℕ) :=
  [("title", 50), ("short_description", 80), ("full_description", 4000)]

/-- `MetadataOptimizer.__init__`: raises `ValueError` unless the platform is
exactly `"apple"` or `"google"` (case-sensitive), otherwise stores the
platform character limits. -/
def metadataOptimizerInit (platform : String) :
    Except String (List (String × ℕ)) :=
  if ¬ (platform = "apple" ∨ platform = "google") then
    Except.error "Platform must be apple or google"
  else
    Except.ok (if platform = "apple" then CHAR_LIMITS_apple else CHAR_LIMITS_google)

/-! ### `keyword_analyzer.py` — intent clustering -/

/-- `KeywordAnalyzer.INTENT_CATEGORIES` in its (insertion-ordered) dictionary
iteration order. -/
def INTENT_CATEGORIES : List (String × List String) :=
  [("track", ["track", "tracking", "monitor", "log", "record", "measure", "count", "diary"]),
   ("manage", ["manage", "management", "organize", "organizer", "control", "handle", "coordinate"]),
   ("plan", ["plan", "planner", "planning", "schedule", "scheduler", "calendar", "agenda", "timeline"]),
   ("create", ["create", "creator", "make", "maker", "build", "builder", "design", "designer", "edit", "editor"]),
   ("learn", ["learn", "learning", "study", "education", "course", "tutorial", "teach", "training"]),
   ("find", ["find", "finder", "search", "discover", "locate", "lookup", "browse", "explore"]),
   ("compare", ["compare", "comparison", "versus", "review", "rate", "rating", "rank", "ranking"]),
   ("share", ["share", "sharing", "social", "connect", "collaborate", "collaboration", "team", "group"]),
   ("save", ["save", "saving", "budget", "budgeting", "money", "finance", "financial", "expense", "cost"]),
   ("health", ["health", "healthy", "fitness", "workout", "exercise", "diet", "nutrition", "wellness", "meditation"]),
   ("communicate", ["chat", "message", "messaging", "call", "calling", "video", "voice", "talk"]),
   ("automate", ["automate", "automation", "automatic", "auto", "smart", "ai", "intelligent", "reminder"])]

/-- Python `str.lower()`, characterwise (executable model of the core
library function). -/
def toLowerStr (s : String) : String := ⟨s.data.map Char.toLower⟩

/-- A character matched by the Python regex `\w` (ASCII fragment). -/
def isWordChar (c : Char) : Bool := c.isAlphanum || c == '_'

/-- Splits a character list into the maximal runs of word characters, in
order (the behaviour of `re.findall` with pattern `\w+`). -/
def splitWordsAux (acc : List Char) : List Char → List (List Char)
  | [] => if acc.isEmpty then [] else [acc.reverse]
  | c :: cs =>
      if isWordChar c then splitWordsAux (c :: acc) cs
      else if acc.isEmpty then splitWordsAux [] cs
      else acc.reverse :: splitWordsAux [] cs

/-- Tokenization used throughout the clusterer:
`re.findall(r'\w+', s.lower())`. -/
def tokenizeWords (s : String) : List String :=
  (splitWordsAux [] (toLowerStr s).data).map List.asString

/-- Order-preserving deduplication keeping first occurrences; models the
Python `set` collecting distinct items (CPython iteration order of a string
set is implementation-defined, so an explicit order is fixed here). -/
def dedupFirst : List String → List String
  | [] => []
  | x :: xs => x :: (dedupFirst xs).filter (fun y => y != x)

/-- Size of `words & set(intent_words)` for a keyword: the number of its
distinct tokens that are seed words of the category. -/
def overlapCount (kw : String) (intentWords : List String) : ℕ :=
  ((dedupFirst (tokenizeWords kw)).filter (fun w => intentWords.contains w)).length

/-- The matching loop of `cluster_by_intent` (lines 311-315): a fold carrying
`(matched_intent, best_overlap)`, updating only on a strictly larger overlap. -/
def bestIntentAux (kw : String) : List (String × List String) →
    Option String × ℕ → Option String × ℕ
  | [], acc => acc
  | cat :: rest, acc =>
      bestIntentAux kw rest
        (if acc.2 < overlapCount kw cat.2 then (some cat.1, overlapCount kw cat.2) else acc)

/-- The intent a keyword is assigned to (`None` models the unclustered
bucket: `matched_intent` stays `None` exactly when every overlap is 0). -/
def assignIntent (kw : String) : Option String :=
  (bestIntentAux kw INTENT_CATEGORIES (none, 0)).1

/-- Largest overlap of a keyword over a category list. -/
def foldMax (kw : String) (l : List (String × List String)) : ℕ :=
  (l.map (fun cat => overlapCount kw cat.2)).foldr max 0

/-- Specification-side assignment, phrased as the spec words it: the first
category (in table iteration order) whose overlap equals the strictly
largest overlap, or none when every overlap is 0. -/
def specAssignIntent (kw : String) : Option String :=
  if foldMax kw INTENT_CATEGORIES = 0 then none
  else (INTENT_CATEGORIES.find?
    (fun cat => overlapCount kw cat.2 == foldMax kw INTENT_CATEGORIES)).map Prod.fst

/-- Appends a keyword to the bucket of its intent, creating the bucket at the
end on first use (Python dict insertion order). -/
def addToBucket : List (String × List String) → String → String →
    List (String × List String)
  | [], intent, kw => [(intent, [kw])]
  | (i, kws) :: rest, intent, kw =>
      if i = intent then (i, kws ++ [kw]) :: rest
      else (i, kws) :: addToBucket rest intent kw

/-- First phase of `cluster_by_intent`: the intent buckets (in dict insertion
order) and the unclustered keywords (in input order). -/
def buildBuckets (keywords : List String) :
    List (String × List String) × List String :=
  keywords.foldl
    (fun acc kw =>
      match assignIntent kw with
      | some i => (addToBucket acc.1 i kw, acc.2)
      | none => (acc.1, acc.2 ++ [kw]))
    ([], [])

/-- The generic two-template fallback bank of `generate_natural_queries`. -/
def fallbackTemplates : List (String → String) :=
  [fun obj => "apps for " ++ obj,
   fun obj => "best " ++ obj ++ " app"]

/-- The per-intent three-template banks of `generate_natural_queries`
(`templates.get(intent, fallback)`). -/
def templatesFor (intent : String) : List (String → String) :=
  if intent = "track" then
    [fun obj => "apps to help me track " ++ obj,
     fun obj => "best " ++ obj ++ " tracking app",
     fun obj => "how to track my " ++ obj ++ " on my phone"]
  else if intent = "manage" then
    [fun obj => "apps to help me manage " ++ obj,
     fun obj => "best " ++ obj ++ " management app",
     fun obj => "how to organize my " ++ obj]
  else if intent = "plan" then
    [fun obj => "apps to help me plan " ++ obj,
     fun obj => "best " ++ obj ++ " planner app",
     fun obj => "how to schedule my " ++ obj]
  else if intent = "create" then
    [fun obj => "apps to create " ++ obj,
     fun obj => "best " ++ obj ++ " creator app",
     fun obj => "easy way to make " ++ obj]
  else if intent = "learn" then
    [fun obj => "apps to learn " ++ obj,
     fun obj => "best " ++ obj ++ " learning app",
     fun obj => "how to study " ++ obj ++ " on my phone"]
  else if intent = "find" then
    [fun obj => "apps to find " ++ obj,
     fun obj => "best app for finding " ++ obj,
     fun obj => "where to find " ++ obj]
  else if intent = "compare" then
    [fun obj => "apps to compare " ++ obj,
     fun obj => "best " ++ obj ++ " comparison app",
     fun obj => "how to compare " ++ obj]
  else if intent = "share" then
    [fun obj => "apps to share " ++ obj,
     fun obj => "best " ++ obj ++ " sharing app",
     fun obj => "how to collaborate on " ++ obj]
  else if intent = "save" then
    [fun obj => "apps to save " ++ obj,
     fun obj => "best " ++ obj ++ " budgeting app",
     fun obj => "how to manage my " ++ obj]
  else if intent = "health" then
    [fun obj => "apps for " ++ obj,
     fun obj => "best " ++ obj ++ " app",
     fun obj => "how to improve my " ++ obj]
  else if intent = "communicate" then
    [fun obj => "apps for " ++ obj,
     fun obj => "best " ++ obj ++ " app",
     fun obj => "how to " ++ obj ++ " for free"]
  else if intent = "automate" then
    [fun obj => "apps to automate " ++ obj,
     fun obj => "best smart " ++ obj ++ " app",
     fun obj => "how to automate " ++ obj]
  else fallbackTemplates

/-- Seed words of an intent (`INTENT_CATEGORIES.get(intent, [])`). -/
def intentWordsFor (intent : String) : List String :=
  ((INTENT_CATEGORIES.find? (fun c => c.1 == intent)).map Prod.snd).getD []

/-- Object extraction of `generate_natural_queries`: the keyword tokens that
are not seed words and are longer than two characters, joined by spaces;
`none` when no token survives. -/
def objectOf (intentWords : List String) (kw : String) : Option String :=
  let objWords := (tokenizeWords kw).filter
    (fun w => !(intentWords.contains w) && decide (2 < w.length))
  if objWords.isEmpty then none else some (String.intercalate " " objWords)

/-- One append step of the query loop: a duplicate string is suppressed and
nothing is added once the cap is reached (the early `return` at the cap). -/
def addQuery (maxQ : ℕ) (queries : List String) (q : String) : List String :=
  if q ∈ queries ∨ maxQ ≤ queries.length then queries else queries ++ [q]

/-- `KeywordAnalyzer.generate_natural_queries`. -/
def generateNaturalQueries (intent : String) (keywords : List String)
    (maxQ : ℕ) : List String :=
  let tmpls := templatesFor intent
  let objs := dedupFirst (keywords.filterMap (objectOf (intentWordsFor intent)))
  (objs.take maxQ).foldl
    (fun acc obj => tmpls.foldl (fun acc2 t => addQuery maxQ acc2 (t obj)) acc)
    []

/-- Per-keyword analysis data as consumed by `score_cluster` (each field
optional, mirroring the dictionary `get` defaults). -/
structure KwData where
  search_volume : Option ℚ
  competing_apps : Option ℚ
  relevance_score : Option ℚ
deriving DecidableEq

/-- Dictionary lookup `keyword_data.get(keyword, {})` (first binding wins). -/
def lookupData (data : List (String × KwData)) (kw : String) : Option KwData :=
  (data.find? (fun p => p.1 == kw)).map Prod.snd

/-- One iteration of the totals loop of `score_cluster`: accumulates
`(total_volume, total_relevance, total_opportunity, count)` with the
per-keyword defaults `search_volume = 0`, `competing_apps = 5000`,
`relevance_score = 0.5`. -/
def scoreClusterStep (data : List (String × KwData))
    (acc : ℚ × ℚ × ℚ × ℕ) (kw : String) : ℚ × ℚ × ℚ × ℕ :=
  let d := lookupData data kw
  let volume := (d.bind KwData.search_volume).getD 0
  let competition := (d.bind KwData.competing_apps).getD 5000
  let relevance := (d.bind KwData.relevance_score).getD 0.5
  let opportunity := if competition > 0 then volume / competition * relevance
    else volume * relevance
  (acc.1 + volume, acc.2.1 + relevance, acc.2.2.1 + opportunity, acc.2.2.2 + 1)

/-- `KeywordAnalyzer.score_cluster`: the count-only proxy when no data is
supplied (a `None` or empty mapping is falsy), otherwise the four capped
sub-scores summed and rounded to one decimal. -/
def scoreCluster (keywords : List String)
    (keyword_data : Option (List (String × KwData))) : ℚ :=
  if keywords = [] then 0
  else
    match keyword_data with
    | none => min ((keywords.length : ℚ) * 10) 50
    | some data =>
        if data = [] then min ((keywords.length : ℚ) * 10) 50
        else
          let totals := keywords.foldl (scoreClusterStep data) (0, 0, 0, 0)
          let count := totals.2.2.2
          if count = 0 then 0
          else round1 (min (totals.1 / 10000) 30 +
            totals.2.1 / (count : ℚ) * 30 +
            min (totals.2.2.1 * 10) 30 +
            min ((count : ℚ) * 2) 10)

/-- Python `str.title()` on the character list: a letter is uppercased after
a non-letter and lowercased after a letter. -/
def titleCaseAux : Bool → List Char → List Char
  | _, [] => []
  | prevAlpha, c :: cs =>
      (if c.isAlpha then (if prevAlpha then c.toLower else c.toUpper) else c) ::
        titleCaseAux c.isAlpha cs

/-- Python `str.title()`. -/
def titleCase (s : String) : String := (titleCaseAux false s.data).asString

/-- Cluster display name: `f"{intent.title()} Intent"`. -/
def clusterName (intent : String) : String := titleCase intent ++ " Intent"

/-- One cluster of the `cluster_by_intent` report. -/
structure IntentCluster where
  name : String
  intent : String
  keywords : List String
  keyword_count : ℕ
  natural_queries : List String
  combined_score : ℚ
deriving DecidableEq

/-- An intent bucket turned into its report cluster (lines 326-335). -/
def mkIntentCluster (keyword_data : Option (List (String × KwData)))
    (bucket : String × List String) : IntentCluster :=
  ⟨clusterName bucket.1, bucket.1, bucket.2, bucket.2.length,
    generateNaturalQueries bucket.1 bucket.2 5,
    scoreCluster bucket.2 keyword_data⟩

/-- The `"General"` cluster built for the unclustered bucket (lines 338-346):
its `natural_queries` field is the literal empty list. -/
def generalCluster (keyword_data : Option (List (String × KwData)))
    (unclustered : List String) : IntentCluster :=
  ⟨"General", "general", unclustered, unclustered.length, [],
    scoreCluster unclustered keyword_data⟩

/-- Stable insertion into a descending-by-score list (equal scores keep the
existing elements first, as Python stable sort does). -/
def insertCluster (c : IntentCluster) : List IntentCluster → List IntentCluster
  | [] => [c]
  | d :: rest =>
      if d.combined_score < c.combined_score then c :: d :: rest
      else d :: insertCluster c rest

/-- Stable sort by `combined_score` descending
(`result.sort(key=..., reverse=True)`). -/
def sortClusters : List IntentCluster → List IntentCluster
  | [] => []
  | c :: rest => insertCluster c (sortClusters rest)

/-- `KeywordAnalyzer.cluster_by_intent`. -/
def clusterByIntent (keywords : List String)
    (keyword_data : Option (List (String × KwData))) : List IntentCluster :=
  let bu := buildBuckets keywords
  sortClusters (bu.1.map (mkIntentCluster keyword_data) ++
    (if bu.2 = [] then [] else [generalCluster keyword_data bu.2]))

/-! ### Rounding helpers -/

theorem round1_mono {x y : ℚ} (h : x ≤ y) : round1 x ≤ round1 y := by
  unfold round1
  have hr : round (10 * x) ≤ round (10 * y) := by
    rw [round_eq, round_eq]
    exact Int.floor_le_floor (by linarith)
  have hq : ((round (10 * x) : ℤ) : ℚ) ≤ ((round (10 * y) : ℤ) : ℚ) := by
    exact_mod_cast hr
  linarith

theorem round1_tenth (n : ℤ) : round1 ((n : ℚ) / 10) = (n : ℚ) / 10 := by
  unfold round1
  have h : (10 : ℚ) * ((n : ℚ) / 10) = (n : ℚ) := by ring
  rw [h, round_intCast]

theorem tenth_le_round1 {n : ℤ} {x : ℚ} (h : (n : ℚ) / 10 ≤ x) :
    (n : ℚ) / 10 ≤ round1 x := by
  have := round1_mono h
  rwa [round1_tenth] at this

theorem round1_le_tenth {n : ℤ} {x : ℚ} (h : x ≤ (n : ℚ) / 10) :
    round1 x ≤ (n : ℚ) / 10 := by
  have := round1_mono h
  rwa [round1_tenth] at this

theorem round1_nonneg {x : ℚ} (h : 0 ≤ x) : 0 ≤ round1 x := by
  have h0 : ((0 : ℤ) : ℚ) / 10 ≤ x := by simpa using h
  simpa using tenth_le_round1 h0

theorem round1_le_100 {x : ℚ} (h : x ≤ 100) : round1 x ≤ 100 := by
  have h0 : x ≤ ((1000 : ℤ) : ℚ) / 10 := by norm_num; linarith
  have := round1_le_tenth h0
  norm_num at this
  exact this

theorem round1_isTenth (x : ℚ) : ∃ n : ℤ, round1 x = (n : ℚ) / 10 :=
  ⟨round (10 * x), rfl⟩

theorem intCast_div_le {a b : ℤ} (h : a ≤ b) : (a : ℚ) / 10 ≤ (b : ℚ) / 10 := by
  have hq : (a : ℚ) ≤ (b : ℚ) := by exact_mod_cast h
  linarith

theorem tenth_min (a b : ℤ) :
    min ((a : ℚ) / 10) ((b : ℚ) / 10) = ((min a b : ℤ) : ℚ) / 10 := by
  rcases le_total a b with h | h
  · rw [min_eq_left h, min_eq_left (intCast_div_le h)]
  · rw [min_eq_right h, min_eq_right (intCast_div_le h)]

theorem tenth_max (a b : ℤ) :
    max ((a : ℚ) / 10) ((b : ℚ) / 10) = ((max a b : ℤ) : ℚ) / 10 := by
  rcases le_total a b with h | h
  · rw [max_eq_right h, max_eq_right (intCast_div_le h)]
  · rw [max_eq_left h, max_eq_left (intCast_div_le h)]

theorem min6_le (a b c d e f : ℚ) :
    min6 a b c d e f ≤ a ∧ min6 a b c d e f ≤ b ∧ min6 a b c d e f ≤ c ∧
    min6 a b c d e f ≤ d ∧ min6 a b c d e f ≤ e ∧ min6 a b c d e f ≤ f := by
  unfold min6
  refine ⟨?_, ?_, ?_, ?_, ?_, ?_⟩ <;> simp [min_le_iff]

theorem le_max6 (a b c d e f : ℚ) :
    a ≤ max6 a b c d e f ∧ b ≤ max6 a b c d e f ∧ c ≤ max6 a b c d e f ∧
    d ≤ max6 a b c d e f ∧ e ≤ max6 a b c d e f ∧ f ≤ max6 a b c d e f := by
  unfold max6
  refine ⟨?_, ?_, ?_, ?_, ?_, ?_⟩ <;> simp [le_max_iff]

theorem resolveWeights_cases (p : Option String) :
    resolveWeights p = WEIGHTS ∨ resolveWeights p = GOOGLE_WEIGHTS ∨
      resolveWeights p = APPLE_WEIGHTS := by
  cases p with
  | none => exact Or.inl rfl
  | some s =>
      simp only [resolveWeights]
      split_ifs <;> simp

theorem raw_within (w : Weights)
    (hw : w = WEIGHTS ∨ w = GOOGLE_WEIGHTS ∨ w = APPLE_WEIGHTS)
    (a b c d e f : ℚ) :
    min6 a b c d e f ≤ rawOverall w a b c d e f ∧
    rawOverall w a b c d e f ≤ max6 a b c d e f := by
  obtain ⟨l1, l2, l3, l4, l5, l6⟩ := min6_le a b c d e f
  obtain ⟨u1, u2, u3, u4, u5, u6⟩ := le_max6 a b c d e f
  rcases hw with rfl | rfl | rfl <;>
    constructor <;>
    simp only [rawOverall, WEIGHTS, GOOGLE_WEIGHTS, APPLE_WEIGHTS] <;>
    linarith

/-! ### Claim theorems for the score aggregator -/

/-- C1: for every set of six one-decimal sub-scores and every platform
selection (apple, google, or default), the `overall_score` returned by
`calculate_overall_score` lies within `[min(sub-scores), max(sub-scores)]`,
because it is the weighted sum of the six sub-scores with weights that sum
to exactly 100 in all three weight profiles, rounded to one decimal. -/
theorem overall_score_convex (platform : Option String) (ms rs ks cs ts vs : ℚ)
    (h1 : ∃ n : ℤ, ms = (n : ℚ) / 10) (h2 : ∃ n : ℤ, rs = (n : ℚ) / 10)
    (h3 : ∃ n : ℤ, ks = (n : ℚ) / 10) (h4 : ∃ n : ℤ, cs = (n : ℚ) / 10)
    (h5 : ∃ n : ℤ, ts = (n : ℚ) / 10) (h6 : ∃ n : ℤ, vs = (n : ℚ) / 10) :
    (wsum WEIGHTS = 100 ∧ wsum GOOGLE_WEIGHTS = 100 ∧ wsum APPLE_WEIGHTS = 100) ∧
    min6 ms rs ks cs ts vs ≤ overallScore (resolveWeights platform) ms rs ks cs ts vs ∧
    overallScore (resolveWeights platform) ms rs ks cs ts vs ≤ max6 ms rs ks cs ts vs := by
  obtain ⟨nm, rfl⟩ := h1
  obtain ⟨nr, rfl⟩ := h2
  obtain ⟨nk, rfl⟩ := h3
  obtain ⟨nc, rfl⟩ := h4
  obtain ⟨nt, rfl⟩ := h5
  obtain ⟨nv, rfl⟩ := h6
  have hb := raw_within (resolveWeights platform) (resolveWeights_cases platform)
    ((nm : ℚ) / 10) ((nr : ℚ) / 10) ((nk : ℚ) / 10)
    ((nc : ℚ) / 10) ((nt : ℚ) / 10) ((nv : ℚ) / 10)
  have hmin : min6 ((nm : ℚ) / 10) ((nr : ℚ) / 10) ((nk : ℚ) / 10)
      ((nc : ℚ) / 10) ((nt : ℚ) / 10) ((nv : ℚ) / 10) =
      ((min nm (min nr (min nk (min nc (min nt nv)))) : ℤ) : ℚ) / 10 := by
    unfold min6
    rw [tenth_min nt nv, tenth_min nc, tenth_min nk, tenth_min nr, tenth_min nm]
  have hmax : max6 ((nm : ℚ) / 10) ((nr : ℚ) / 10) ((nk : ℚ) / 10)
      ((nc : ℚ) / 10) ((nt : ℚ) / 10) ((nv : ℚ) / 10) =
      ((max nm (max nr (max nk (max nc (max nt nv)))) : ℤ) : ℚ) / 10 := by
    unfold max6
    rw [tenth_max nt nv, tenth_max nc, tenth_max nk, tenth_max nr, tenth_max nm]
  refine ⟨⟨by norm_num [wsum, WEIGHTS], by norm_num [wsum, GOOGLE_WEIGHTS],
    by norm_num [wsum, APPLE_WEIGHTS]⟩, ?_, ?_⟩
  · rw [hmin]
    exact tenth_le_round1 (hmin ▸ hb.1)
  · rw [hmax]
    exact round1_le_tenth (hmax ▸ hb.2)

/-- C1 witness: the bounds at the default platform with all six sub-scores
equal to 50. -/
theorem overall_score_convex_witness :
    (wsum WEIGHTS = 100 ∧ wsum GOOGLE_WEIGHTS = 100 ∧ wsum APPLE_WEIGHTS = 100) ∧
    min6 50 50 50 50 50 50 ≤ overallScore (resolveWeights none) 50 50 50 50 50 50 ∧
    overallScore (resolveWeights none) 50 50 50 50 50 50 ≤ max6 50 50 50 50 50 50 :=
  overall_score_convex none 50 50 50 50 50 50
    ⟨500, by norm_num⟩ ⟨500, by norm_num⟩ ⟨500, by norm_num⟩
    ⟨500, by norm_num⟩ ⟨500, by norm_num⟩ ⟨500, by norm_num⟩

/-- C2 counterexample: `score_metadata_quality` on a bundle whose
`description_quality` is the malformed numeric value −10 (all other fields
0) returns −90, a negative score, so the claim that every numeric input
yields a value in [0, 100] is false on the code. -/
theorem metadata_scorer_negative_cex :
    scoreMetadataQuality ⟨0, 0, 0, -10, 0⟩ = -90 ∧
    scoreMetadataQuality ⟨0, 0, 0, -10, 0⟩ < 0 := by
  have h : scoreMetadataQuality ⟨0, 0, 0, -10, 0⟩ = -90 := by
    norm_num [scoreMetadataQuality, titleScore, descScore, densityScore,
      round1, round_eq]
  exact ⟨h, by rw [h]; norm_num⟩

theorem titleScore_bounds (md : MetadataInput) :
    0 ≤ titleScore md ∧ titleScore md ≤ 35 := by
  constructor
  · simp only [titleScore]
    split_ifs <;> exact le_min (by norm_num) (by norm_num)
  · exact min_le_right _ _

theorem descScore_bounds (md : MetadataInput)
    (hq0 : 0 ≤ md.description_quality) :
    0 ≤ descScore md ∧ descScore md ≤ 35 := by
  constructor
  · simp only [descScore]
    split_ifs <;> exact le_min (by linarith) (by norm_num)
  · exact min_le_right _ _

theorem densityScore_bounds (md : MetadataInput)
    (hd0 : 0 ≤ md.keyword_density) :
    0 ≤ densityScore md ∧ densityScore md ≤ 30 := by
  simp only [densityScore]
  split_ifs with h1 h2
  · norm_num
  · constructor <;> linarith
  · refine ⟨le_max_right _ _, max_le ?_ (by norm_num)⟩
    rcases not_and_or.1 h1 with h | h
    · linarith [not_lt.1 h2]
    · have h5 : 5 < md.keyword_density := not_le.1 h
      linarith

theorem ratingQualityScore_bounds (r : ℚ) :
    10 ≤ ratingQualityScore r ∧ ratingQualityScore r ≤ 50 := by
  simp only [ratingQualityScore]
  split_ifs <;> constructor <;> linarith

theorem ratingVolumeScore_bounds {t : ℚ} (ht : 0 ≤ t) :
    0 ≤ ratingVolumeScore t ∧ ratingVolumeScore t ≤ 30 := by
  simp only [ratingVolumeScore]
  split_ifs <;> constructor <;> linarith

theorem ratingVelocityScore_bounds (v : ℚ) :
    5 ≤ ratingVelocityScore v ∧ ratingVelocityScore v ≤ 20 := by
  simp only [ratingVelocityScore]
  split_ifs <;> norm_num

/-- C2 (amended): for metric bundles whose `description_quality`,
`keyword_density` and `total_ratings` are non-negative (every other field an
arbitrary rational), `score_metadata_quality` and `score_ratings_reviews`
both return a value in [0, 100] rounded to one decimal.  (As stated over
all numeric input the claim fails: see the counterexample, where a
malformed negative `description_quality` drives the metadata score
below 0.) -/
theorem dimension_scorer_bounds (md : MetadataInput) (rt : RatingsInput)
    (hq0 : 0 ≤ md.description_quality)
    (hd0 : 0 ≤ md.keyword_density) (ht0 : 0 ≤ rt.total_ratings) :
    (0 ≤ scoreMetadataQuality md ∧ scoreMetadataQuality md ≤ 100 ∧
      ∃ n : ℤ, scoreMetadataQuality md = (n : ℚ) / 10) ∧
    (0 ≤ scoreRatingsReviews rt ∧ scoreRatingsReviews rt ≤ 100 ∧
      ∃ n : ℤ, scoreRatingsReviews rt = (n : ℚ) / 10) := by
  obtain ⟨t1, t2⟩ := titleScore_bounds md
  obtain ⟨d1, d2⟩ := descScore_bounds md hq0
  obtain ⟨k1, k2⟩ := densityScore_bounds md hd0
  obtain ⟨q1, q2⟩ := ratingQualityScore_bounds rt.average_rating
  obtain ⟨v1, v2⟩ := ratingVolumeScore_bounds ht0
  obtain ⟨w1, w2⟩ := ratingVelocityScore_bounds rt.recent_ratings_30d
  refine ⟨⟨?_, ?_, round1_isTenth _⟩, ⟨?_, ?_, round1_isTenth _⟩⟩
  · exact round1_nonneg (by linarith)
  · exact round1_le_100 (by linarith)
  · exact round1_nonneg (le_min (by linarith) (by norm_num))
  · exact round1_le_100 (min_le_right _ _)

/-- C2 witness: the amended bounds at a concrete in-range bundle. -/
theorem dimension_scorer_bounds_witness :
    (0 ≤ scoreMetadataQuality ⟨2, 30, 2000, 1, 3⟩ ∧
      scoreMetadataQuality ⟨2, 30, 2000, 1, 3⟩ ≤ 100 ∧
      ∃ n : ℤ, scoreMetadataQuality ⟨2, 30, 2000, 1, 3⟩ = (n : ℚ) / 10) ∧
    (0 ≤ scoreRatingsReviews ⟨4.6, 6000, 120⟩ ∧
      scoreRatingsReviews ⟨4.6, 6000, 120⟩ ≤ 100 ∧
      ∃ n : ℤ, scoreRatingsReviews ⟨4.6, 6000, 120⟩ = (n : ℚ) / 10) :=
  dimension_scorer_bounds ⟨2, 30, 2000, 1, 3⟩ ⟨4.6, 6000, 120⟩
    (by norm_num) (by norm_num) (by norm_num)

theorem ratingQualityScore_mono {r1 r2 : ℚ} (h : r1 ≤ r2) :
    ratingQualityScore r1 ≤ ratingQualityScore r2 := by
  simp only [ratingQualityScore]
  split_ifs <;> linarith

/-- C7: `score_ratings_reviews` is monotonically non-decreasing in
`average_rating`: for every ratings bundle and every pair of values
`r1 ≤ r2` of `average_rating` (all other fields fixed), the score at `r2`
is at least the score at `r1`, across all four piecewise branches. -/
theorem ratings_score_monotone (t rec30 r1 r2 : ℚ) (h : r1 ≤ r2) :
    scoreRatingsReviews ⟨r1, t, rec30⟩ ≤ scoreRatingsReviews ⟨r2, t, rec30⟩ := by
  apply round1_mono
  apply min_le_min _ (le_refl (100 : ℚ))
  have hq := ratingQualityScore_mono h
  simp only
  linarith

/-- C7 witness: monotonicity at the concrete pair 3 ≤ 4. -/
theorem ratings_score_monotone_witness :
    scoreRatingsReviews ⟨3, 0, 0⟩ ≤ scoreRatingsReviews ⟨4, 0, 0⟩ :=
  ratings_score_monotone 0 0 3 4 (by norm_num)

/-- C8: the health-status label is the Excellent tier when the overall
score is at least 80, the Good tier on [65, 80), the Fair tier on [50, 65)
and the Poor tier below 50, the thresholds being evaluated top-down. -/
theorem health_status_tiers (s : ℚ) :
    (80 ≤ s → assessHealthStatus s = "Excellent - Top-tier ASO performance") ∧
    (65 ≤ s ∧ s < 80 →
      assessHealthStatus s = "Good - Competitive ASO with room for improvement") ∧
    (50 ≤ s ∧ s < 65 → assessHealthStatus s = "Fair - Needs strategic improvements") ∧
    (s < 50 → assessHealthStatus s = "Poor - Requires immediate ASO overhaul") := by
  refine ⟨fun h => ?_, fun h => ?_, fun h => ?_, fun h => ?_⟩ <;>
    simp only [assessHealthStatus] <;>
    split_ifs <;>
    first
      | rfl
      | (exfalso; linarith)

/-- C9: constructing `MetadataOptimizer` fails with a validation error
exactly when the platform argument lies outside `{"apple", "google"}`, while
the scoring core accepts any platform string: `_resolve_weights` always
resolves to one of the three total weight profiles (and every scorer of the
embedding is a total function on numeric input by construction). -/
theorem platform_validation_asymmetry :
    (∀ p : String, (∃ e, metadataOptimizerInit p = Except.error e) ↔
      ¬(p = "apple" ∨ p = "google")) ∧
    (∀ p : Option String, resolveWeights p = WEIGHTS ∨
      resolveWeights p = GOOGLE_WEIGHTS ∨ resolveWeights p = APPLE_WEIGHTS) := by
  constructor
  · intro p
    constructor
    · rintro ⟨e, he⟩ hmem
      unfold metadataOptimizerInit at he
      rw [if_neg (not_not_intro hmem)] at he
      simp at he
    · intro hmem
      refine ⟨"Platform must be apple or google", ?_⟩
      unfold metadataOptimizerInit
      rw [if_pos hmem]
  · exact resolveWeights_cases

/-- C4: for every keyword analyzed with `relevance_score < 0.5` the
recommendation text is "Low relevance - avoid targeting" regardless of the
potential and difficulty scores; for `relevance_score ≥ 0.5` the
recommendation follows the 4-tier ladder on the potential score (at least
70 high priority, at least 50 split by `difficulty_score < 50`, at least 30
long-tail, else deprioritize). -/
theorem recommendation_relevance_gate (p d r : ℚ) :
    (r < 0.5 → generateRecommendation p d r = "Low relevance - avoid targeting") ∧
    (0.5 ≤ r → generateRecommendation p d r =
      if p ≥ 70 then "High priority - target immediately"
      else if p ≥ 50 then
        if d < 50 then "Good opportunity - include in metadata"
        else "Competitive - use in description, not title"
      else if p ≥ 30 then "Secondary keyword - use for long-tail variations"
      else "Low potential - deprioritize") := by
  constructor
  · intro h
    simp only [generateRecommendation]
    rw [if_pos h]
  · intro h
    simp only [generateRecommendation]
    rw [if_neg (not_lt.2 h)]

/-- C5: for all non-negative `search_volume` and `competing_apps`, the
difficulty score equals `(0.7 min(competing_apps/50000, 1) +
0.3 min(search_volume/1000000, 1)) × 100` rounded to one decimal — hence it
lies in [0, 100] — except that it returns exactly 0 whenever
`competing_apps = 0`, even when `search_volume > 0`. -/
theorem difficulty_score_spec (v c : ℚ) (hv : 0 ≤ v) (hc : 0 ≤ c) :
    (c = 0 → difficultyScore v c = 0) ∧
    (c ≠ 0 → difficultyScore v c =
      round1 ((min (c / 50000) 1 * 0.7 + min (v / 1000000) 1 * 0.3) * 100)) ∧
    0 ≤ difficultyScore v c ∧ difficultyScore v c ≤ 100 := by
  have hb : ∀ x : ℚ, 0 ≤ x → 0 ≤ min (x / 50000) 1 ∧ min (x / 50000) 1 ≤ 1 :=
    fun x hx => ⟨le_min (by positivity) (by norm_num), min_le_right _ _⟩
  have hcf0 : 0 ≤ min (c / 50000) 1 := le_min (by positivity) (by norm_num)
  have hcf1 : min (c / 50000) 1 ≤ 1 := min_le_right _ _
  have hvf0 : 0 ≤ min (v / 1000000) 1 := le_min (by positivity) (by norm_num)
  have hvf1 : min (v / 1000000) 1 ≤ 1 := min_le_right _ _
  refine ⟨fun h => by simp [difficultyScore, h], fun h => by simp [difficultyScore, h], ?_, ?_⟩
  · by_cases h0 : c = 0
    · simp [difficultyScore, h0]
    · simp only [difficultyScore, if_neg h0]
      exact round1_nonneg (by nlinarith)
  · by_cases h0 : c = 0
    · simp [difficultyScore, h0]
    · simp only [difficultyScore, if_neg h0]
      exact round1_le_100 (by nlinarith)

/-- C5 witness: the specification at volume 500000 and 25000 competing
apps. -/
theorem difficulty_score_spec_witness :
    ((25000 : ℚ) = 0 → difficultyScore 500000 25000 = 0) ∧
    ((25000 : ℚ) ≠ 0 → difficultyScore 500000 25000 =
      round1 ((min ((25000 : ℚ) / 50000) 1 * 0.7 +
        min ((500000 : ℚ) / 1000000) 1 * 0.3) * 100)) ∧
    0 ≤ difficultyScore 500000 25000 ∧ difficultyScore 500000 25000 ≤ 100 :=
  difficulty_score_spec 500000 25000 (by norm_num) (by norm_num)

theorem scoreCluster_defaults_fold (data : List (String × KwData)) :
    ∀ (kws : List String), (∀ kw ∈ kws, lookupData data kw = none) →
    ∀ (a b c : ℚ) (n : ℕ),
    kws.foldl (scoreClusterStep data) (a, b, c, n) =
      (a, b + (kws.length : ℚ) * (1 / 2), c, n + kws.length) := by
  intro kws
  induction kws with
  | nil => intro _ a b c n; simp
  | cons x xs ih =>
      intro h a b c n
      have hx : lookupData data x = none := h x (by simp)
      have hstep : scoreClusterStep data (a, b, c, n) x =
          (a, b + 1 / 2, c, n + 1) := by
        simp only [scoreClusterStep, hx, Option.none_bind, Option.getD_none]
        rw [if_pos (by norm_num : (5000 : ℚ) > 0)]
        norm_num
      rw [List.foldl_cons, hstep, ih (fun kw hkw => h kw (by simp [hkw]))]
      simp only [List.length_cons, Prod.mk.injEq]
      push_cast
      refine ⟨trivial, by ring, trivial, by omega⟩

/-- C10 (implicit): when `score_cluster` is called with a non-empty
`keyword_data` mapping, a member keyword absent from that mapping still
contributes through the defaults `search_volume = 0`,
`competing_apps = 5000`, `relevance_score = 0.5`, so a non-empty cluster
whose keywords are all missing from the data scores
`0.5 × 30 = 15` relevance points plus `min(count × 2, 10)` diversity
points; the count-only proxy `min(count × 10, 50)` is used only when
`keyword_data` is absent or empty. -/
theorem score_cluster_default_contributions (kws : List String)
    (data : List (String × KwData)) (hne : kws ≠ []) (hdata : data ≠ [])
    (hmiss : ∀ kw ∈ kws, lookupData data kw = none) :
    scoreCluster kws (some data) = 15 + min ((kws.length : ℚ) * 2) 10 ∧
    scoreCluster kws none = min ((kws.length : ℚ) * 10) 50 ∧
    scoreCluster kws (some []) = min ((kws.length : ℚ) * 10) 50 := by
  have hL : (kws.length : ℚ) ≠ 0 := by
    simpa using fun h => hne (List.length_eq_zero.1 h)
  refine ⟨?_, by simp [scoreCluster, hne], by simp [scoreCluster, hne]⟩
  simp only [scoreCluster, if_neg hne, if_neg hdata]
  rw [scoreCluster_defaults_fold data kws hmiss 0 0 0 0]
  have hcount : ¬ (0 + kws.length = 0) := by
    simp [List.length_eq_zero]
    exact hne
  rw [if_neg hcount]
  have e2 : ((0 : ℚ) + (kws.length : ℚ) * (1 / 2)) / ((0 + kws.length : ℕ) : ℚ) * 30 =
      15 := by
    rw [zero_add, Nat.zero_add]
    field_simp
    ring
  rw [e2]
  have e1 : min ((0 : ℚ) / 10000) 30 = 0 := by norm_num
  have e3 : min ((0 : ℚ) * 10) 30 = 0 := by norm_num
  rw [e1, e3]
  have e4 : ((0 + kws.length : ℕ) : ℚ) * 2 = (kws.length : ℚ) * 2 := by
    push_cast
    ring
  rw [e4]
  have e5 : (0 : ℚ) + 15 + 0 + min ((kws.length : ℚ) * 2) 10 =
      15 + min ((kws.length : ℚ) * 2) 10 := by ring
  rw [e5]
  rcases le_total ((kws.length : ℚ) * 2) 10 with h | h
  · rw [min_eq_left h]
    have e6 : (15 : ℚ) + (kws.length : ℚ) * 2 =
        (((150 + 20 * (kws.length : ℤ)) : ℤ) : ℚ) / 10 := by
      push_cast
      ring
    rw [e6, round1_tenth]
  · rw [min_eq_right h]
    have e7 : (15 : ℚ) + 10 = (((250 : ℤ)) : ℚ) / 10 := by norm_num
    rw [e7, round1_tenth]

/-- C10 witness: a singleton cluster whose only keyword is missing from a
non-empty data mapping scores 15 + 2 = 17, while the count-only proxy would
give 10. -/
theorem score_cluster_default_contributions_witness :
    scoreCluster ["a"] (some [("b", ⟨none, none, none⟩)]) =
      15 + min (((["a"] : List String).length : ℚ) * 2) 10 ∧
    scoreCluster ["a"] none = min (((["a"] : List String).length : ℚ) * 10) 50 ∧
    scoreCluster ["a"] (some []) = min (((["a"] : List String).length : ℚ) * 10) 50 :=
  score_cluster_default_contributions ["a"] [("b", ⟨none, none, none⟩)]
    (by simp) (by simp) (by decide)

theorem foldMax_cons (kw : String) (x : String × List String)
    (xs : List (String × List String)) :
    foldMax kw (x :: xs) = max (overlapCount kw x.2) (foldMax kw xs) := by
  simp [foldMax]

theorem le_foldMax (kw : String) :
    ∀ (l : List (String × List String)), ∀ cat ∈ l,
      overlapCount kw cat.2 ≤ foldMax kw l := by
  intro l
  induction l with
  | nil => simp
  | cons x xs ih =>
      intro cat hcat
      rw [foldMax_cons]
      rcases List.mem_cons.1 hcat with rfl | hmem
      · exact le_max_left _ _
      · exact (ih cat hmem).trans (le_max_right _ _)

theorem foldMax_attained (kw : String) :
    ∀ (l : List (String × List String)), foldMax kw l = 0 ∨
      ∃ cat ∈ l, overlapCount kw cat.2 = foldMax kw l := by
  intro l
  induction l with
  | nil => exact Or.inl rfl
  | cons x xs ih =>
      rw [foldMax_cons]
      rcases le_total (overlapCount kw x.2) (foldMax kw xs) with h | h
      · rw [max_eq_right h]
        rcases ih with h0 | ⟨c, hc, hceq⟩
        · rcases Nat.le_antisymm (h0 ▸ h) (Nat.zero_le _) with h1
          exact Or.inl h0
        · exact Or.inr ⟨c, List.mem_cons_of_mem _ hc, hceq⟩
      · rw [max_eq_left h]
        exact Or.inr ⟨x, List.mem_cons_self _ _, rfl⟩

theorem foldMax_eq_zero_iff (kw : String) :
    ∀ (l : List (String × List String)),
      foldMax kw l = 0 ↔ ∀ cat ∈ l, overlapCount kw cat.2 = 0 := by
  intro l
  induction l with
  | nil => simp [foldMax]
  | cons x xs ih =>
      rw [foldMax_cons]
      constructor
      · intro h cat hcat
        rcases List.mem_cons.1 hcat with rfl | hmem
        · omega
        · exact (ih.1 (by omega)) cat hmem
      · intro h
        have h1 : overlapCount kw x.2 = 0 := h x (List.mem_cons_self _ _)
        have h2 : foldMax kw xs = 0 :=
          ih.2 fun cat hcat => h cat (List.mem_cons_of_mem _ hcat)
        omega

theorem bestIntentAux_spec (kw : String) :
    ∀ (l : List (String × List String)) (a : Option String) (b : ℕ),
    bestIntentAux kw l (a, b) =
      if foldMax kw l ≤ b then (a, b)
      else ((l.find? fun cat => decide (foldMax kw l ≤ overlapCount kw cat.2)).map
        Prod.fst, foldMax kw l) := by
  intro l
  induction l with
  | nil => intro a b; simp [bestIntentAux, foldMax]
  | cons x xs ih =>
      intro a b
      simp only [bestIntentAux]
      by_cases hbx : b < overlapCount kw x.2
      · rw [if_pos hbx, ih (some x.1) (overlapCount kw x.2)]
        by_cases hMx : foldMax kw xs ≤ overlapCount kw x.2
        · rw [if_pos hMx, foldMax_cons, max_eq_left hMx, if_neg (by omega),
            List.find?_cons_of_pos _ (by simp)]
          rfl
        · rw [if_neg hMx, foldMax_cons, max_eq_right (by omega), if_neg (by omega),
            List.find?_cons_of_neg _ (by simp; omega)]
      · rw [if_neg hbx, ih a b]
        by_cases hMb : foldMax kw xs ≤ b
        · rw [if_pos hMb, foldMax_cons, if_pos (by omega)]
        · rw [if_neg hMb, foldMax_cons, max_eq_right (by omega), if_neg (by omega),
            List.find?_cons_of_neg _ (by simp; omega)]

theorem find?_pred_congr {α : Type} (p q : α → Bool) :
    ∀ (l : List α), (∀ x ∈ l, p x = q x) → l.find? p = l.find? q := by
  intro l
  induction l with
  | nil => intro _; rfl
  | cons x xs ih =>
      intro h
      have hx := h x (List.mem_cons_self _ _)
      by_cases hpx : p x = true
      · rw [List.find?_cons_of_pos _ hpx, List.find?_cons_of_pos _ (hx ▸ hpx)]
      · rw [List.find?_cons_of_neg _ hpx, List.find?_cons_of_neg _ (by rw [← hx]; exact hpx),
          ih fun y hy => h y (List.mem_cons_of_mem _ hy)]

/-- C6: for every keyword, the matching phase of `cluster_by_intent`
assigns the keyword to the intent category whose seed-word set has the
strictly largest intersection with the tokenized word set of the keyword —
first-encountered category winning ties in the table iteration order — and
leaves the keyword unclustered exactly when its overlap with every category
is 0; formally, `assignIntent` coincides with the specification-side
`specAssignIntent`, and the unclustered case is the all-overlaps-zero
case. -/
theorem intent_assignment_first_max (kw : String) :
    assignIntent kw = specAssignIntent kw ∧
    (assignIntent kw = none ↔
      ∀ cat ∈ INTENT_CATEGORIES, overlapCount kw cat.2 = 0) := by
  have hmain : assignIntent kw = specAssignIntent kw := by
    unfold assignIntent specAssignIntent
    rw [bestIntentAux_spec kw INTENT_CATEGORIES none 0]
    by_cases h0 : foldMax kw INTENT_CATEGORIES = 0
    · rw [if_pos (by omega), if_pos h0]
    · rw [if_neg (by omega), if_neg h0]
      show (List.find? _ _).map Prod.fst = _
      congr 1
      apply find?_pred_congr
      intro cat hcat
      have hle := le_foldMax kw INTENT_CATEGORIES cat hcat
      rw [Bool.eq_iff_iff]
      simp only [decide_eq_true_eq, beq_iff_eq]
      omega
  refine ⟨hmain, ?_⟩
  rw [hmain, ← foldMax_eq_zero_iff]
  unfold specAssignIntent
  by_cases h0 : foldMax kw INTENT_CATEGORIES = 0
  · simp [h0]
  · rw [if_neg h0]
    constructor
    · intro hnone
      rcases foldMax_attained kw INTENT_CATEGORIES with h | ⟨c, hc, hceq⟩
      · exact absurd h h0
      · have hsome : (INTENT_CATEGORIES.find? fun cat =>
            decide (overlapCount kw cat.2 = foldMax kw INTENT_CATEGORIES)).isSome := by
          rw [List.find?_isSome]
          exact ⟨c, hc, by simp [hceq]⟩
        rcases Option.isSome_iff_exists.1 hsome with ⟨cat, hcat⟩
        rw [show (INTENT_CATEGORIES.find? fun cat =>
            overlapCount kw cat.2 == foldMax kw INTENT_CATEGORIES) =
            INTENT_CATEGORIES.find? fun cat =>
            decide (overlapCount kw cat.2 = foldMax kw INTENT_CATEGORIES) from
          find?_pred_congr _ _ _ fun y hy => by
            rw [Bool.eq_iff_iff]; simp, hcat] at hnone
        simp at hnone
    · intro h
      exact absurd h h0

theorem mem_insertCluster {x c : IntentCluster} :
    ∀ {l : List IntentCluster}, x ∈ insertCluster c l ↔ x = c ∨ x ∈ l := by
  intro l
  induction l with
  | nil => simp [insertCluster]
  | cons d rest ih =>
      simp only [insertCluster]
      split_ifs
      · simp [List.mem_cons]
      · simp only [List.mem_cons, ih]
        tauto

theorem mem_sortClusters {x : IntentCluster} :
    ∀ {l : List IntentCluster}, x ∈ sortClusters l ↔ x ∈ l := by
  intro l
  induction l with
  | nil => simp [sortClusters]
  | cons c rest ih =>
      simp only [sortClusters, mem_insertCluster, ih, List.mem_cons]

theorem clusterName_ne_general (i : String) : clusterName i ≠ "General" := by
  intro h
  have hlen := congrArg String.length h
  rw [clusterName, String.length_append] at hlen
  have h7 : (" Intent" : String).length = 7 := rfl
  have h7b : ("General" : String).length = 7 := rfl
  have h0 : (titleCase i).length = 0 := by omega
  have hempty : titleCase i = "" := by
    rcases hti : titleCase i with ⟨l⟩
    rw [hti] at h0
    have : l.length = 0 := h0
    have hl : l = [] := List.length_eq_zero.1 this
    rw [hl]
  rw [clusterName, hempty] at h
  exact absurd h (by decide)

theorem clusterByIntent_zzz :
    clusterByIntent ["zzz"] none =
      [⟨"General", "general", ["zzz"], 1, [], 10⟩] := by
  have hb : buildBuckets ["zzz"] = ([], ["zzz"]) := by decide
  have hs : scoreCluster ["zzz"] none = 10 := by
    norm_num [scoreCluster]
  simp [clusterByIntent, hb, sortClusters, insertCluster, generalCluster, hs]

/-- C3 counterexample: on the keyword list `["zzz"]` the whole result is
one "General" cluster whose `natural_queries` list is empty, although its
member keyword yields the object term "zzz" — the generic two-template
fallback bank applied to the same member keywords would have produced two
queries, so the unclustered bucket does not get generated queries as the
claim states. -/
theorem general_cluster_queries_cex :
    clusterByIntent ["zzz"] none =
      [⟨"General", "general", ["zzz"], 1, [], 10⟩] ∧
    generateNaturalQueries "general" ["zzz"] 5 =
      ["apps for zzz", "best zzz app"] :=
  ⟨clusterByIntent_zzz, by decide⟩

/-- C3 (amended): for every keyword list and optional data, the "General"
cluster produced by `cluster_by_intent` for the unclustered bucket always
has the empty `natural_queries` list — the code installs a literal `[]`
instead of applying the generic fallback bank — and a fortiori the list has
at most `max_queries` (default 5) queries and no duplicate query strings. -/
theorem general_cluster_queries_empty (kws : List String)
    (data : Option (List (String × KwData))) (c : IntentCluster)
    (hc : c ∈ clusterByIntent kws data) (hname : c.name = "General") :
    c.natural_queries = [] ∧ c.natural_queries.length ≤ 5 ∧
      c.natural_queries.Nodup := by
  simp only [clusterByIntent] at hc
  have hmem := mem_sortClusters.1 hc
  rcases List.mem_append.1 hmem with h | h
  · obtain ⟨bucket, hb, rfl⟩ := List.mem_map.1 h
    simp only [mkIntentCluster] at hname
    exact absurd hname (clusterName_ne_general bucket.1)
  · by_cases hu : (buildBuckets kws).2 = []
    · rw [if_pos hu] at h
      cases h
    · rw [if_neg hu] at h
      rcases List.mem_singleton.1 h with rfl
      exact ⟨rfl, by simp [generalCluster], List.nodup_nil⟩

/-- C3 witness: the amended statement at the concrete General cluster of
`cluster_by_intent(["zzz"])`. -/
theorem general_cluster_queries_empty_witness :
    (⟨"General", "general", ["zzz"], 1, [], 10⟩ : IntentCluster).natural_queries = [] ∧
    (⟨"General", "general", ["zzz"], 1, [], 10⟩ : IntentCluster).natural_queries.length ≤ 5 ∧
    (⟨"General", "general", ["zzz"], 1, [], 10⟩ : IntentCluster).natural_queries.Nodup :=
  general_cluster_queries_empty ["zzz"] none
    ⟨"General", "general", ["zzz"], 1, [], 10⟩
    (by rw [clusterByIntent_zzz]; exact List.mem_singleton.2 rfl) rfl
